import Mathlib

/-!
Verification of the quant-options-showcase repository.

Shallow embedding of the selection-and-hedging engine:
JavaScript numbers are modelled as exact rationals (`ℚ`) where the code is
arithmetic on decimals, and as reals (`ℝ`) where the code calls `Math.exp`,
`Math.log`, `Math.sqrt`.  Maps (`Map`, plain objects keyed by id) are
modelled as functions to `Option`, matching `get`-with-default semantics.
Network calls are oracles passed as function arguments; a call that the
source may receive as `null` is an `Option`.
-/

namespace QuantOptions

/-- Hedge status enum from src/hedge/strategiesV2.js (`HEDGE_STATUS`). -/
inductive HedgeStatus where
  | NONE
  | STEP1
  | FULL
deriving DecidableEq, Repr

/-- Numeric rank of a hedge status, for stating monotonicity
(NONE < STEP1 < FULL). -/
def HedgeStatus.rank : HedgeStatus → ℕ
  | .NONE => 0
  | .STEP1 => 1
  | .FULL => 2

/-- Option type of a dual-investment product / position. -/
inductive OptionType where
  | PUT
  | CALL
deriving DecidableEq, Repr

/-- Order side used by executeHedge (`'SELL'` for PUT, `'BUY'` for CALL). -/
inductive Side where
  | BUY
  | SELL
deriving DecidableEq, Repr

/-- An exchange-reported position, with the fields the hedge path reads
(src/hedge/strategiesV2.js, src/sharedState.js). -/
structure Position where
  id : String
  optionType : OptionType
  subscriptionAmount : ℚ
  strikePrice : ℚ
  hedgeStatus : HedgeStatus
deriving DecidableEq, Repr

/-- In-memory ledger state of SharedState: the `hedgeStatuses` Map keyed by
position id (src/sharedState.js).  The persisted positions.log entry carries
further descriptive fields; only `hedgeStatus` is read back by
`loadHedgeStatus`, so the map of statuses is the state that matters. -/
structure LedgerState where
  hedgeStatuses : String → Option HedgeStatus

/-- SharedState.getHedgeStatus: lookup with default `NONE`
(`this.hedgeStatuses.get(positionId) || HEDGE_STATUS.NONE`). -/
def getHedgeStatus (st : LedgerState) (positionId : String) : HedgeStatus :=
  (st.hedgeStatuses positionId).getD HedgeStatus.NONE

/-- SharedState.updatePosition: `this.hedgeStatuses.set(position.id, hedgeStatus)`
with the source's default argument `hedgeStatus = HEDGE_STATUS.NONE`; the
persisted file entry's `hedgeStatus` field is set to the same value. -/
def updatePosition (st : LedgerState) (position : Position)
    (hedgeStatus : HedgeStatus := HedgeStatus.NONE) : LedgerState :=
  { hedgeStatuses := fun i =>
      if i = position.id then some hedgeStatus else st.hedgeStatuses i }

/-- Result payload of a confirmed margin order (`response.data` of
openCrossMarginPosition); its contents are not inspected by executeHedge. -/
structure OrderResult where
  raw : String
deriving DecidableEq, Repr

/-- DynamicHedgeStrategy.executeHedge (src/hedge/strategiesV2.js lines 71-89).
`orderResult` is the value returned by `openCrossMarginPosition` (`none`
models the `null` it returns on any failure).  On `some`, the position's
`hedgeStatus` field is overwritten with `targetHedgeStatus` and
`updatePosition` records it; on `none` nothing changes. -/
def executeHedge (position : Position) (orderResult : Option OrderResult)
    (targetHedgeStatus : HedgeStatus) (st : LedgerState) :
    Position × LedgerState :=
  match orderResult with
  | some _ =>
      ({ position with hedgeStatus := targetHedgeStatus },
       updatePosition st position targetHedgeStatus)
  | none => (position, st)

/-- Hedge side chosen by executeHedge: `position.optionType === 'PUT' ? 'SELL' : 'BUY'`. -/
def hedgeSide (position : Position) : Side :=
  match position.optionType with
  | .PUT => Side.SELL
  | .CALL => Side.BUY

/-- Hedge amount chosen by executeHedge: `position.subscriptionAmount * 0.5`. -/
def hedgeAmount (position : Position) : ℚ :=
  position.subscriptionAmount * (1 / 2)

/-- BaseStrategy.calculateBreakEven (src/hedge/strategiesV2.js lines 29-31):
`strike * (1 + (optionType === 'CALL' ? roiDecimal : -roiDecimal))`. -/
def calculateBreakEven (strike roiDecimal : ℚ) (optionType : OptionType) : ℚ :=
  strike * (1 + (if optionType = OptionType.CALL then roiDecimal else -roiDecimal))

/-- computeBreakEven (src/helpers/algoV2.js lines 15-18): same formula with
the ROI given in percent. -/
def computeBreakEven (strikePrice : ℚ) (optionType : OptionType) (roiPct : ℚ) : ℚ :=
  strikePrice * (1 + (if optionType = OptionType.CALL then roiPct / 100 else -(roiPct / 100)))

section Concurrency

/-- Outcome of one `await task()` inside safeRun: it either returns normally
or throws (the throw is caught by safeRun's `catch`). -/
inductive TaskOutcome where
  | ok
  | threw
deriving DecidableEq, Repr

/-- Result of one safeRun invocation: whether the task body ran at all, and
the value of the `cronLock` flag owned by this invocation after it finishes
(the `finally` block). -/
structure SafeRunResult where
  taskRan : Bool
  lockAfter : Bool
deriving DecidableEq, Repr

/-- safeRun (index.js lines 31-44): when `cronLock` is set the new invocation
returns immediately (drop, not queue) leaving the flag as-is; otherwise the
flag is set, the task runs (normally or throwing into the `catch`), and the
`finally` block clears the flag on every path. -/
def safeRun (cronLock : Bool) (outcome : TaskOutcome) : SafeRunResult :=
  if cronLock then
    { taskRan := false, lockAfter := cronLock }
  else
    match outcome with
    | .ok => { taskRan := true, lockAfter := false }
    | .threw => { taskRan := true, lockAfter := false }

end Concurrency

section MainLoop

/-- Outcome of one mainLoop invocation (index.js lines 201-226): either a
`process.exit(0)` from one of the two cap checks, or fallthrough. -/
inductive LoopOutcome where
  | exitMaxPositions
  | exitMaxHedged
  | continueCycle
deriving DecidableEq, Repr

/-- Count of hedged positions in mainLoop:
`activePositions.filter(pos => pos.hedgeStatus !== 'NONE').length`. -/
def hedgedCount (activePositions : List Position) : ℕ :=
  (activePositions.filter (fun pos => pos.hedgeStatus ≠ HedgeStatus.NONE)).length

/-- The two process-level stop checks of mainLoop (index.js lines 201-226):
exit when `activePositions.length >= config.MAX_TOTAL_POSITIONS`, else exit
when `hedgedCount >= Math.floor(config.MAX_TOTAL_POSITIONS)`, else continue.
`maxTotalPositions` is a JS number, modelled as a rational. -/
def mainLoopOutcome (activePositions : List Position) (maxTotalPositions : ℚ) :
    LoopOutcome :=
  if (activePositions.length : ℚ) ≥ maxTotalPositions then
    LoopOutcome.exitMaxPositions
  else if (hedgedCount activePositions : ℚ) ≥ (⌊maxTotalPositions⌋ : ℚ) then
    LoopOutcome.exitMaxHedged
  else
    LoopOutcome.continueCycle

/-- The guard at the top of runExecution (index.js lines 104-114): execution
is skipped when `activePositions.length >= config.MAX_TOTAL_POSITIONS`. -/
def runExecutionSkipped (activePositions : List Position) (maxTotalPositions : ℚ) :
    Bool :=
  (activePositions.length : ℚ) ≥ maxTotalPositions

end MainLoop

section ConfigCurves

/-- HEDGE_SAFETY.getMinRoiForExpiry (src/config.js lines 76-81):
`min(0.0075 + max(0, daysToExpiry - 2) * 0.001, 0.07)`.  JS decimal
literals are exact rationals here. -/
def getMinRoiForExpiry (daysToExpiry : ℚ) : ℚ :=
  min (0.0075 + max 0 (daysToExpiry - 2) * 0.001) 0.07

/-- ROI_STRATEGIES.shortTermROI.calculate (src/config.js lines 121-129):
`baseROI + growthFactor * (exp(exponentialRate * d) - 1)` with
baseROI = 0.7, growthFactor = 0.01, exponentialRate = 0.101. -/
noncomputable def shortTermROI (daysToExpiry : ℝ) : ℝ :=
  0.7 + 0.01 * (Real.exp (0.101 * daysToExpiry) - 1)

/-- ROI_STRATEGIES.longTermROI.calculate (src/config.js lines 106-118):
`if (d <= 1) return 1.0; return 0.7 + 0.02 * (sqrt(d) - 1) + 1.5 * log(d)`. -/
noncomputable def longTermROI (daysToExpiry : ℝ) : ℝ :=
  if daysToExpiry ≤ 1 then 1.0
  else 0.7 + 0.02 * (Real.sqrt daysToExpiry - 1) + 1.5 * Real.log daysToExpiry

end ConfigCurves

section PrecisionHandling

/-- countDecimals (src/hedge/precisionHandling.js): 0 for an integer value,
otherwise the number of digits after the decimal point of the value's
decimal string.  For a rational with a terminating decimal expansion that is
the least `d` with `value * 10^d` integral, i.e. with the reduced
denominator dividing `10^d` (a JS float prints at most a few dozen
fractional digits, so the search is bounded). -/
def countDecimals (value : ℚ) : ℕ :=
  if value.den = 1 then 0
  else (((List.range 100).find? (fun d => 10 ^ d % value.den == 0)).getD 0)

/-- adjustQuantityToLotSize (src/hedge/precisionHandling.js lines 12-17):
`floor(quantity * 10^d) / 10^d` where `d = countDecimals(stepSize)`;
the final `toFixed(d)` formats that already-`d`-decimal value and does not
change it numerically. -/
def adjustQuantityToLotSize (quantity stepSize : ℚ) : ℚ :=
  let stepSizeDecimals := countDecimals stepSize
  let factor : ℚ := 10 ^ stepSizeDecimals
  (⌊quantity * factor⌋ : ℚ) / factor

end PrecisionHandling

section CollateralResolver

/-- A configured collateral asset (src/helpers/collateral.js). -/
structure CollateralAsset where
  enabled : Bool
  minAmount : ℚ
  maxAmount : ℚ
  ltv : ℚ
  priority : ℤ
deriving DecidableEq, Repr

/-- COLLATERAL_CONFIG.assets (src/helpers/collateral.js), in object insertion
order: BTC (priority 1), FDUSD (priority 2), USDT (priority 3), all enabled
with ltv 0.75. -/
def collateralAssets : List (String × CollateralAsset) :=
  [("BTC", { enabled := true, minAmount := 0.001, maxAmount := 10,
             ltv := 0.75, priority := 1 }),
   ("FDUSD", { enabled := true, minAmount := 100, maxAmount := 100000,
               ltv := 0.75, priority := 2 }),
   ("USDT", { enabled := true, minAmount := 100, maxAmount := 100000,
              ltv := 0.75, priority := 3 })]

/-- The sort comparator used by borrowCoins (src/helpers/utils.js lines
529-543): when borrowing BTC, BTC compares greater than everything (moved to
the end); for any other coin, BTC compares less than everything (kept
first); other pairs compare by configured priority. -/
def borrowSortCompare (coin : String) (a b : String × CollateralAsset) : ℤ :=
  if coin = "BTC" then
    if a.1 = "BTC" then 1
    else if b.1 = "BTC" then -1
    else a.2.priority - b.2.priority
  else
    if a.1 = "BTC" then -1
    else if b.1 = "BTC" then 1
    else a.2.priority - b.2.priority

/-- Insert `a` before the first element it compares at-or-below: the
insertion step of a stable insertion sort. -/
def stableInsert (le : α → α → Bool) (a : α) : List α → List α
  | [] => [a]
  | b :: l => if le a b then a :: b :: l else b :: stableInsert le a l

/-- Stable sort by a boolean comparator.  JS Array.prototype.sort is a
stable sort ordered by the comparator; for a consistent comparator every
stable sort produces the same list, so an insertion sort models it. -/
def stableSortBy (le : α → α → Bool) : List α → List α
  | [] => []
  | a :: l => stableInsert le a (stableSortBy le l)

/-- Candidate list of borrowCoins: enabled assets, sorted with the
BTC-specific comparator. -/
def sortedCollateralAssets (coin : String) : List (String × CollateralAsset) :=
  stableSortBy (fun a b => borrowSortCompare coin a b ≤ 0)
    (collateralAssets.filter (fun e => e.2.enabled))

/-- Stablecoin test used by borrowCoins: `c === 'USDT' || c === 'FDUSD'`. -/
def isStablecoin (c : String) : Bool :=
  c == "USDT" || c == "FDUSD"

/-- Price pair resolution of borrowCoins (src/helpers/utils.js lines
548-565): (currentPrice, collateralPrice).  `fetchPrice` is the
fetchCurrentPrice oracle; `none` models its `null` on failure (an invalid
symbol such as USDTUSDT yields `none`). -/
def borrowPrices (coin collateralCoin : String) (fetchPrice : String → Option ℚ) :
    Option ℚ × Option ℚ :=
  if isStablecoin collateralCoin then
    (fetchPrice (coin ++ collateralCoin), some 1)
  else if isStablecoin coin then
    (some 1, fetchPrice (collateralCoin ++ coin))
  else
    (fetchPrice (coin ++ "USDT"), fetchPrice (collateralCoin ++ "USDT"))

/-- Truthiness check `if (!currentPrice || !collateralPrice)` of borrowCoins:
a missing (`null`) or zero price is falsy and causes a skip. -/
def priceTruthy : Option ℚ → Bool
  | none => false
  | some v => decide (v ≠ 0)

/-- One collateral borrow attempt actually submitted by borrowCoins
(the POST to the loan endpoint); the source formats `collateralAmount` with
`toFixed(8)` for the request, which does not affect which collateral is
used. -/
structure BorrowAttempt where
  collateralCoin : String
  collateralAmount : ℚ
deriving DecidableEq, Repr

/-- The attempt submitted for one candidate, when prices resolved: following
`borrowValue = amount * currentPrice`, `collateralValue = borrowValue / ltv`,
`collateralAmount = collateralValue / collateralPrice`. -/
def borrowAttemptOf (coin : String) (amount : ℚ) (fetchPrice : String → Option ℚ)
    (collateralCoin : String) (cfg : CollateralAsset) : BorrowAttempt :=
  { collateralCoin := collateralCoin,
    collateralAmount :=
      amount * (borrowPrices coin collateralCoin fetchPrice).1.getD 0 / cfg.ltv /
        (borrowPrices coin collateralCoin fetchPrice).2.getD 0 }

/-- The candidate loop of borrowCoins (src/helpers/utils.js lines 546-603):
for each candidate in sorted order, resolve prices (skip the candidate when
either is falsy), submit the borrow, and stop at the first success
(`borrowOk` is the exchange's accept/reject oracle).  Returns the list of
attempts submitted and the successful collateral coin, if any. -/
def borrowLoop (coin : String) (amount : ℚ) (fetchPrice : String → Option ℚ)
    (borrowOk : String → Bool) :
    List (String × CollateralAsset) → List BorrowAttempt × Option String
  | [] => ([], none)
  | (collateralCoin, cfg) :: rest =>
    if priceTruthy (borrowPrices coin collateralCoin fetchPrice).1 &&
       priceTruthy (borrowPrices coin collateralCoin fetchPrice).2 then
      if borrowOk collateralCoin then
        ([borrowAttemptOf coin amount fetchPrice collateralCoin cfg],
         some collateralCoin)
      else
        (borrowAttemptOf coin amount fetchPrice collateralCoin cfg ::
           (borrowLoop coin amount fetchPrice borrowOk rest).1,
         (borrowLoop coin amount fetchPrice borrowOk rest).2)
    else borrowLoop coin amount fetchPrice borrowOk rest

/-- borrowCoins (src/helpers/utils.js lines 521-611): run the candidate loop
over the sorted enabled collateral assets. -/
def borrowCoins (coin : String) (amount : ℚ) (fetchPrice : String → Option ℚ)
    (borrowOk : String → Bool) : List BorrowAttempt × Option String :=
  borrowLoop coin amount fetchPrice borrowOk (sortedCollateralAssets coin)

end CollateralResolver

section SubscribeRetry

/-- Fields of a dual-investment product read by subscribeToProduct and its
retry matcher (src/helpers/utils.js lines 742-828). -/
structure SubProduct where
  id : String
  optionType : OptionType
  exercisedCoin : String
  investCoin : String
  underlying : String
  settleCoin : String
  settleDate : ℤ
  apr : ℚ
deriving DecidableEq, Repr

/-- Outcome of the subscription POST for one product: success, or an error
with the exchange's numeric code and message. -/
inductive PostOutcome where
  | success
  | failure (code : ℤ) (msg : String)
deriving DecidableEq, Repr

/-- Whether `pat` occurs at the head of `l`. -/
def seqStartsWith : List Char → List Char → Bool
  | _, [] => true
  | [], _ :: _ => false
  | c :: cs, d :: ds => c == d && seqStartsWith cs ds

/-- Whether `pat` occurs anywhere in `l` (substring search over the
character list). -/
def seqContains (pat : List Char) : List Char → Bool
  | [] => pat.isEmpty
  | c :: cs => seqStartsWith (c :: cs) pat || seqContains pat cs

/-- The `msg.includes('APY')` test of subscribeToProduct. -/
def msgIncludesAPY (msg : String) : Bool :=
  seqContains "APY".data msg.data

/-- The retry matcher of subscribeToProduct: same underlying, option type,
settle coin and settle date, and APR at least the original's. -/
def matchesRetryProduct (product q : SubProduct) : Bool :=
  q.underlying == product.underlying &&
  q.optionType == product.optionType &&
  q.settleCoin == product.settleCoin &&
  q.settleDate == product.settleDate &&
  decide (product.apr ≤ q.apr)

/-- Modelled from the spec: the `retriedProducts` set of already-retried
product ids.  subscribeToProduct reads and inserts into it
(src/helpers/utils.js lines 795-797) but its declaration is absent from the
shipped sources; per the spec it is the set ensuring "retried at most once
per product per cycle", modelled here as a list of ids threaded through the
call.  subscribeToProduct itself (src/helpers/utils.js lines 742-828):
`post` is the subscription POST oracle and `refetch` the
fetchDualProductByMeta oracle; on success return true; on a -9000 error
whose message mentions APY, for a product not yet retried, mark it retried,
re-fetch, and recurse once on the first matching product (the recursion is
on the matched product, bounded here by fuel); with no match, or on any
other failure, return false. -/
def subscribeToProduct (fuel : ℕ) (post : SubProduct → PostOutcome)
    (refetch : SubProduct → List SubProduct) (product : SubProduct)
    (amount : ℚ) (retried : List String) : Bool × List String :=
  match fuel with
  | 0 => (false, retried)
  | fuel + 1 =>
    match post product with
    | .success => (true, retried)
    | .failure code msg =>
      if code = -9000 ∧ msgIncludesAPY msg = true ∧ product.id ∉ retried then
        let retried2 := product.id :: retried
        match (refetch product).find? (fun q => matchesRetryProduct product q) with
        | some matched => subscribeToProduct fuel post refetch matched amount retried2
        | none => (false, retried2)
      else (false, retried)

end SubscribeRetry

/-! Concrete fixtures used by the theorems below. -/

/-- A sample position with no hedge yet. -/
def samplePosition : Position :=
  { id := "P1", optionType := OptionType.PUT, subscriptionAmount := 100,
    strikePrice := 60000, hedgeStatus := HedgeStatus.NONE }

/-- The same position as reported once its ledger status is FULL. -/
def samplePositionFull : Position :=
  { samplePosition with hedgeStatus := HedgeStatus.FULL }

/-- An empty ledger. -/
def emptyLedger : LedgerState := { hedgeStatuses := fun _ => none }

/-- A ledger in which position P1 is fully hedged. -/
def ledgerFullP1 : LedgerState :=
  { hedgeStatuses := fun i => if i = "P1" then some HedgeStatus.FULL else none }

/-- A confirmed order result. -/
def sampleOrder : OrderResult := { raw := "ok" }

/-! Theorems, one per claim. -/

/-- C1: the claim says hedgeStatus is monotonically non-decreasing and that
no operation ever writes a lower status over a higher one.  The code has no
such guard: with position P1 recorded as FULL in the ledger, executeHedge
with target STEP1 and a confirmed order (exactly the call monitorPositions
issues) rewrites the status to STEP1, and updatePosition called with its
default argument rewrites it to NONE — both strict regressions. -/
theorem executeHedge_overwrites_full_with_step1 :
    getHedgeStatus ledgerFullP1 "P1" = HedgeStatus.FULL ∧
    getHedgeStatus
      (executeHedge samplePositionFull (some sampleOrder) HedgeStatus.STEP1
        ledgerFullP1).2 "P1" = HedgeStatus.STEP1 ∧
    getHedgeStatus (updatePosition ledgerFullP1 samplePositionFull) "P1" =
      HedgeStatus.NONE ∧
    HedgeStatus.rank HedgeStatus.STEP1 < HedgeStatus.rank HedgeStatus.FULL ∧
    HedgeStatus.rank HedgeStatus.NONE < HedgeStatus.rank HedgeStatus.FULL := by
  refine ⟨rfl, rfl, rfl, ?_, ?_⟩ <;> decide

/-- C2: executeHedge records a new hedge status via updatePosition exactly
when the margin-order call returns a non-null orderResult; on a null result
the position and the ledger are unchanged, and on success the recorded
status is the target status. -/
theorem executeHedge_records_iff_order_success (position : Position)
    (orderResult : Option OrderResult) (target : HedgeStatus) (st : LedgerState) :
    (orderResult = none →
      executeHedge position orderResult target st = (position, st)) ∧
    (orderResult.isSome = true →
      executeHedge position orderResult target st =
        ({ position with hedgeStatus := target }, updatePosition st position target) ∧
      getHedgeStatus (executeHedge position orderResult target st).2 position.id =
        target) := by
  constructor
  · rintro rfl; rfl
  · intro h
    match orderResult, h with
    | some r, _ =>
      refine ⟨rfl, ?_⟩
      simp [executeHedge, updatePosition, getHedgeStatus]

/-- Witness for C2 at a concrete position, ledger and both outcomes. -/
theorem executeHedge_records_iff_order_success_witness :
    executeHedge samplePosition none HedgeStatus.STEP1 emptyLedger =
      (samplePosition, emptyLedger) ∧
    getHedgeStatus
      (executeHedge samplePosition (some sampleOrder) HedgeStatus.STEP1
        emptyLedger).2 samplePosition.id = HedgeStatus.STEP1 :=
  ⟨(executeHedge_records_iff_order_success samplePosition none HedgeStatus.STEP1
      emptyLedger).1 rfl,
   ((executeHedge_records_iff_order_success samplePosition (some sampleOrder)
      HedgeStatus.STEP1 emptyLedger).2 rfl).2⟩

/-- C5: mainLoop reaches `process.exit(0)` (it does not merely fall through
to the rest of the cycle) whenever the active-position count reaches
MAX_TOTAL_POSITIONS or the hedged count reaches the hedged cap; and whenever
the global cap is reached, runExecution's own guard also skips execution. -/
theorem mainLoop_exits_at_caps (activePositions : List Position)
    (maxTotalPositions : ℚ)
    (h : (activePositions.length : ℚ) ≥ maxTotalPositions ∨
         (hedgedCount activePositions : ℚ) ≥ (⌊maxTotalPositions⌋ : ℚ)) :
    mainLoopOutcome activePositions maxTotalPositions ≠ LoopOutcome.continueCycle ∧
    ((activePositions.length : ℚ) ≥ maxTotalPositions →
      runExecutionSkipped activePositions maxTotalPositions = true) := by
  constructor
  · unfold mainLoopOutcome
    rcases h with h | h
    · rw [if_pos h]; simp
    · by_cases h1 : (activePositions.length : ℚ) ≥ maxTotalPositions
      · rw [if_pos h1]; simp
      · rw [if_neg h1, if_pos h]; simp
  · intro h1
    simpa [runExecutionSkipped] using h1

/-- A roster of 30 identical active positions. -/
def thirtyPositions : List Position := List.replicate 30 samplePosition

/-- Witness for C5: the spec's example scenario, MAX_TOTAL_POSITIONS = 30
with 30 active positions. -/
theorem mainLoop_exits_at_caps_witness :
    mainLoopOutcome thirtyPositions 30 ≠ LoopOutcome.continueCycle ∧
    runExecutionSkipped thirtyPositions 30 = true := by
  have hlen : ((thirtyPositions.length : ℚ) ≥ 30) := by norm_num [thirtyPositions]
  exact ⟨(mainLoop_exits_at_caps thirtyPositions 30 (Or.inl hlen)).1,
         (mainLoop_exits_at_caps thirtyPositions 30 (Or.inl hlen)).2 hlen⟩

/-- C6: safeRun drops (does not queue) an invocation arriving while the
lock is held, leaving the flag as the running cycle's `finally` will clear
it; when the lock is free the task runs and the flag is cleared by the
`finally` block whether the task returned normally or threw. -/
theorem safeRun_drops_overlap_and_releases_lock (cronLock : Bool)
    (outcome : TaskOutcome) :
    (cronLock = true →
      safeRun cronLock outcome = { taskRan := false, lockAfter := true }) ∧
    (cronLock = false →
      (safeRun cronLock outcome).taskRan = true ∧
      (safeRun cronLock outcome).lockAfter = false) := by
  constructor
  · rintro rfl; rfl
  · rintro rfl; cases outcome <;> exact ⟨rfl, rfl⟩

/-- Witness for C6: both lock states, including a throwing task. -/
theorem safeRun_drops_overlap_and_releases_lock_witness :
    safeRun true TaskOutcome.ok = { taskRan := false, lockAfter := true } ∧
    (safeRun false TaskOutcome.threw).taskRan = true ∧
    (safeRun false TaskOutcome.threw).lockAfter = false :=
  ⟨(safeRun_drops_overlap_and_releases_lock true TaskOutcome.ok).1 rfl,
   (safeRun_drops_overlap_and_releases_lock false TaskOutcome.threw).2 rfl⟩

/-- C9: for positive strike and positive roi, the CALL break-even lies
strictly above the strike and the PUT break-even strictly below it. -/
theorem breakEven_call_above_put_below (strike roi : ℚ)
    (hs : 0 < strike) (hr : 0 < roi) :
    strike < calculateBreakEven strike roi OptionType.CALL ∧
    calculateBreakEven strike roi OptionType.PUT < strike := by
  have hc : calculateBreakEven strike roi OptionType.CALL = strike * (1 + roi) := by
    simp [calculateBreakEven]
  have hp : calculateBreakEven strike roi OptionType.PUT = strike * (1 - roi) := by
    unfold calculateBreakEven
    rw [if_neg (by decide)]
    ring
  constructor
  · rw [hc]; nlinarith
  · rw [hp]; nlinarith

/-- Witness for C9 at strike 60000, roi 0.1. -/
theorem breakEven_call_above_put_below_witness :
    (60000 : ℚ) < calculateBreakEven 60000 (1/10) OptionType.CALL ∧
    calculateBreakEven 60000 (1/10) OptionType.PUT < 60000 :=
  breakEven_call_above_put_below 60000 (1/10) (by norm_num) (by norm_num)

/-- C10: the hedged-cap exit in mainLoop is unreachable for an integer
MAX_TOTAL_POSITIONS: the hedged count never exceeds the active-position
count, the hedged cap is `Math.floor` of the total cap (the identity on an
integer), and the check runs only after the global-cap check has already
exited, so `hedgedCount >= maxHedgedPositions` never holds there. -/
theorem hedged_cap_exit_unreachable (activePositions : List Position) (m : ℤ) :
    hedgedCount activePositions ≤ activePositions.length ∧
    (⌊(m : ℚ)⌋ : ℤ) = m ∧
    mainLoopOutcome activePositions (m : ℚ) ≠ LoopOutcome.exitMaxHedged := by
  refine ⟨List.length_filter_le _ _, Int.floor_intCast m, ?_⟩
  unfold mainLoopOutcome
  by_cases h1 : (activePositions.length : ℚ) ≥ (m : ℚ)
  · rw [if_pos h1]; simp
  · have hc : (hedgedCount activePositions : ℚ) ≤ (activePositions.length : ℚ) := by
      exact_mod_cast List.length_filter_le _ _
    have h2 : ¬ ((hedgedCount activePositions : ℚ) ≥ (⌊(m : ℚ)⌋ : ℚ)) := by
      rw [Int.floor_intCast]
      push_neg at h1 ⊢
      linarith
    rw [if_neg h1, if_neg h2]; simp

/-- Witness for C10 at the shipped cap of 30 with the 30-position roster. -/
theorem hedged_cap_exit_unreachable_witness :
    hedgedCount thirtyPositions ≤ thirtyPositions.length ∧
    (⌊((30 : ℤ) : ℚ)⌋ : ℤ) = 30 ∧
    mainLoopOutcome thirtyPositions ((30 : ℤ) : ℚ) ≠ LoopOutcome.exitMaxHedged :=
  hedged_cap_exit_unreachable thirtyPositions 30

/-! Claim C4: monotonicity and caps of the ROI curves.  Helper lemmas first. -/

/-- getMinRoiForExpiry is monotone. -/
theorem getMinRoiForExpiry_mono {x y : ℚ} (h : x ≤ y) :
    getMinRoiForExpiry x ≤ getMinRoiForExpiry y := by
  unfold getMinRoiForExpiry
  apply min_le_min _ le_rfl
  have hmax : max 0 (x - 2) ≤ max 0 (y - 2) := max_le_max le_rfl (by linarith)
  have := mul_le_mul_of_nonneg_right hmax (show (0:ℚ) ≤ 0.001 by norm_num)
  linarith

/-- shortTermROI is monotone (the exponential is). -/
theorem shortTermROI_mono {x y : ℝ} (h : x ≤ y) :
    shortTermROI x ≤ shortTermROI y := by
  unfold shortTermROI
  have := Real.exp_le_exp.mpr (show 0.101 * x ≤ 0.101 * y by linarith)
  linarith

/-- Beyond one day the long-term curve stays at or above its day-one value. -/
theorem longTermROI_ge_one {x : ℝ} (hx : 2 ≤ x) : 1 ≤ longTermROI x := by
  unfold longTermROI
  rw [if_neg (by linarith)]
  have hs : 1 ≤ Real.sqrt x := Real.one_le_sqrt.mpr (by linarith)
  have hl : Real.log 2 ≤ Real.log x := Real.log_le_log (by norm_num) hx
  have h2 := Real.log_two_gt_d9
  linarith

/-- longTermROI is monotone from two days on. -/
theorem longTermROI_mono_ge_two {x y : ℝ} (hx : 2 ≤ x) (hxy : x ≤ y) :
    longTermROI x ≤ longTermROI y := by
  unfold longTermROI
  rw [if_neg (by linarith), if_neg (by linarith)]
  have hs := Real.sqrt_le_sqrt hxy
  have hl := Real.log_le_log (show (0:ℝ) < x by linarith) hxy
  linarith

/-- longTermROI is monotone over whole days `1 ≤ d ≤ e` (the form in which
the pipeline evaluates it, at `roundedDays`). -/
theorem longTermROI_mono_nat (d e : ℕ) (hd : 1 ≤ d) (hde : d ≤ e) :
    longTermROI (d : ℝ) ≤ longTermROI (e : ℝ) := by
  rcases Nat.lt_or_ge d 2 with h2 | h2
  · have hd1 : d = 1 := by omega
    subst hd1
    rcases Nat.lt_or_ge e 2 with he | he
    · have he1 : e = 1 := by omega
      subst he1
      exact le_refl _
    · have h1 : longTermROI ((1 : ℕ) : ℝ) = 1 := by
        unfold longTermROI
        rw [if_pos (by norm_num)]
        norm_num
      rw [h1]
      have : (2:ℝ) ≤ (e : ℝ) := by exact_mod_cast he
      exact longTermROI_ge_one this
  · exact longTermROI_mono_ge_two (by exact_mod_cast h2) (by exact_mod_cast hde)

/-- C4: for whole days `d ≥ 1`, the minimum-ROI floor and both target-ROI
curves are monotonically non-decreasing, and the floor never exceeds its
configured cap 0.07 (the two target curves have no configured cap in the
shipped config). -/
theorem roi_curves_monotone_and_capped (d e : ℕ) (hd : 1 ≤ d) (hde : d ≤ e) :
    getMinRoiForExpiry (d : ℚ) ≤ getMinRoiForExpiry (e : ℚ) ∧
    getMinRoiForExpiry (d : ℚ) ≤ 0.07 ∧
    shortTermROI (d : ℝ) ≤ shortTermROI (e : ℝ) ∧
    longTermROI (d : ℝ) ≤ longTermROI (e : ℝ) :=
  ⟨getMinRoiForExpiry_mono (by exact_mod_cast hde),
   min_le_right _ _,
   shortTermROI_mono (by exact_mod_cast hde),
   longTermROI_mono_nat d e hd hde⟩

/-- Witness for C4 at days 1 and 2. -/
theorem roi_curves_monotone_and_capped_witness :
    getMinRoiForExpiry ((1 : ℕ) : ℚ) ≤ getMinRoiForExpiry ((2 : ℕ) : ℚ) ∧
    getMinRoiForExpiry ((1 : ℕ) : ℚ) ≤ 0.07 ∧
    shortTermROI ((1 : ℕ) : ℝ) ≤ shortTermROI ((2 : ℕ) : ℝ) ∧
    longTermROI ((1 : ℕ) : ℝ) ≤ longTermROI ((2 : ℕ) : ℝ) :=
  roi_curves_monotone_and_capped 1 2 (by norm_num) (by norm_num)

/-! Claim C3: collateral selection order. -/

/-- A price oracle under which only the BTC pairs resolve (as on the real
exchange, where self-pairs such as USDTUSDT are invalid and return null). -/
def btcPriceOracle : String → Option ℚ := fun s =>
  if s = "BTCUSDT" then some 100000
  else if s = "BTCFDUSD" then some 100000
  else none

/-- An exchange that rejects every borrow request. -/
def allBorrowsRejected : String → Bool := fun _ => false

/-- C3 counterexample: borrowing BTC when every borrow is rejected and BTC
prices are available submits three attempts, FDUSD, USDT and then BTC
itself — a borrow attempt whose collateralCoin equals the borrowed coin,
contradicting the claim that the same asset is never used as both the
borrowed asset and its own collateral. -/
theorem borrowCoins_btc_self_collateral_attempt :
    ((borrowCoins "BTC" 1 btcPriceOracle allBorrowsRejected).1.map
      (fun a => a.collateralCoin)) = ["FDUSD", "USDT", "BTC"] ∧
    "BTC" ∈ ((borrowCoins "BTC" 1 btcPriceOracle allBorrowsRejected).1.map
      (fun a => a.collateralCoin)) := by
  constructor <;> decide

/-- Attempts are always a subsequence, in order, of the sorted candidate
list. -/
theorem borrowLoop_attempts_sublist (coin : String) (amount : ℚ)
    (fetchPrice : String → Option ℚ) (borrowOk : String → Bool)
    (l : List (String × CollateralAsset)) :
    ((borrowLoop coin amount fetchPrice borrowOk l).1.map
      (fun a => a.collateralCoin)).Sublist (l.map (fun e => e.1)) := by
  induction l with
  | nil => simp [borrowLoop]
  | cons hd tl ih =>
    obtain ⟨c, cfg⟩ := hd
    unfold borrowLoop
    by_cases hp : (priceTruthy (borrowPrices coin c fetchPrice).1 &&
        priceTruthy (borrowPrices coin c fetchPrice).2) = true
    · rw [if_pos hp]
      by_cases hb : borrowOk c = true
      · rw [if_pos hb]
        simpa [borrowAttemptOf] using List.Sublist.cons₂ c (List.nil_sublist _)
      · rw [if_neg hb]
        simpa [borrowAttemptOf] using List.Sublist.cons₂ c ih
    · rw [if_neg hp]
      exact List.Sublist.cons _ ih

/-- C3 amended: candidates are the enabled collateral assets with a purely
BTC-specific reordering — borrowing BTC demotes BTC to lowest priority,
borrowing anything else promotes BTC to highest priority with the rest in
priority order — and every attempt's collateral is drawn from that list in
order; the borrowed coin is not excluded from its own candidate list. -/
theorem borrowCoins_candidate_order_and_attempts (coin : String)
    (hne : coin ≠ "BTC") (amount : ℚ) (fetchPrice : String → Option ℚ)
    (borrowOk : String → Bool) :
    (sortedCollateralAssets "BTC").map (fun e => e.1) = ["FDUSD", "USDT", "BTC"] ∧
    (sortedCollateralAssets coin).map (fun e => e.1) = ["BTC", "FDUSD", "USDT"] ∧
    ((borrowCoins coin amount fetchPrice borrowOk).1.map
      (fun a => a.collateralCoin)).Sublist
      ((sortedCollateralAssets coin).map (fun e => e.1)) := by
  have horder : (sortedCollateralAssets coin).map (fun e => e.1) =
      ["BTC", "FDUSD", "USDT"] := by
    unfold sortedCollateralAssets
    simp only [borrowSortCompare, hne, if_false]
    decide
  exact ⟨by decide, horder,
    borrowLoop_attempts_sublist coin amount fetchPrice borrowOk _⟩

/-- Witness for C3 amended, borrowing ETH. -/
theorem borrowCoins_candidate_order_and_attempts_witness :
    (sortedCollateralAssets "BTC").map (fun e => e.1) = ["FDUSD", "USDT", "BTC"] ∧
    (sortedCollateralAssets "ETH").map (fun e => e.1) = ["BTC", "FDUSD", "USDT"] ∧
    ((borrowCoins "ETH" 1 btcPriceOracle allBorrowsRejected).1.map
      (fun a => a.collateralCoin)).Sublist
      ((sortedCollateralAssets "ETH").map (fun e => e.1)) :=
  borrowCoins_candidate_order_and_attempts "ETH" (by decide) 1 btcPriceOracle
    allBorrowsRejected

/-! Claim C8: lot-size quantity adjustment. -/

/-- C8 counterexample: with quantity 0.3 and step size 0.25 the adjusted
quantity is 0.3 itself, which is not an integer multiple of the step size —
the function floors at the step size's decimal precision, not at the step
size. -/
theorem adjustQuantity_not_step_multiple :
    adjustQuantityToLotSize (3/10) (1/4) = 3/10 ∧
    ¬ ∃ n : ℤ, (3/10 : ℚ) = (n : ℚ) * (1/4) := by
  constructor
  · have hden : ((1 : ℚ)/4).den = 4 := by norm_num
    have hd : countDecimals (1/4) = 2 := by
      unfold countDecimals
      simp only [hden]
      rw [if_neg (by norm_num)]
      decide
    show ((⌊(3 : ℚ)/10 * 10 ^ countDecimals (1/4)⌋ : ℚ) / 10 ^ countDecimals (1/4))
      = 3/10
    rw [hd]
    have h30 : (3 : ℚ)/10 * 10 ^ (2 : ℕ) = ((30 : ℤ) : ℚ) := by norm_num
    rw [h30, Int.floor_intCast]
    norm_num
  · rintro ⟨n, hn⟩
    have h5 : ((5 * n : ℤ) : ℚ) = 6 := by push_cast; linarith
    have h6 : (5 * n : ℤ) = 6 := by exact_mod_cast h5
    omega

/-- C8 amended: for every quantity `q ≥ 0` and step size `s > 0`, the
adjusted quantity never exceeds `q` (round toward zero, never up) and is an
integer multiple of `10^(-countDecimals s)`, the decimal granularity of the
step size (which equals the step size exactly when the step size is a
negative power of ten, the usual exchange lot size). -/
theorem adjustQuantity_rounds_toward_zero_decimal (q s : ℚ)
    (hq : 0 ≤ q) (hs : 0 < s) :
    adjustQuantityToLotSize q s ≤ q ∧
    ∃ m : ℤ, adjustQuantityToLotSize q s = (m : ℚ) / 10 ^ countDecimals s := by
  constructor
  · show (⌊q * 10 ^ countDecimals s⌋ : ℚ) / 10 ^ countDecimals s ≤ q
    have hf : (0:ℚ) < 10 ^ countDecimals s := by positivity
    rw [div_le_iff₀ hf]
    exact_mod_cast Int.floor_le (q * 10 ^ countDecimals s)
  · exact ⟨⌊q * 10 ^ countDecimals s⌋, rfl⟩

/-- Witness for C8 amended at quantity 0.7, step size 0.1. -/
theorem adjustQuantity_rounds_toward_zero_decimal_witness :
    adjustQuantityToLotSize (7/10) (1/10) ≤ 7/10 ∧
    ∃ m : ℤ, adjustQuantityToLotSize (7/10) (1/10) =
      (m : ℚ) / 10 ^ countDecimals (1/10) :=
  adjustQuantity_rounds_toward_zero_decimal (7/10) (1/10) (by norm_num)
    (by norm_num)

/-! Claim C7: the stale-APY retry of subscribeToProduct. -/

/-- C7: on a -9000 rejection whose message mentions APY, a product already
retried is not retried again; a product not yet retried is marked retried
and either fails terminally (no crash) when no re-fetched product matches,
or is retried exactly once via the first product matching on underlying,
option type, settle coin, settle date and APR at least the original's. -/
theorem subscribeToProduct_single_bounded_retry (fuel : ℕ)
    (post : SubProduct → PostOutcome) (refetch : SubProduct → List SubProduct)
    (product : SubProduct) (amount : ℚ) (retried : List String) (msg : String)
    (hpost : post product = PostOutcome.failure (-9000) msg)
    (hmsg : msgIncludesAPY msg = true) :
    (product.id ∈ retried →
      subscribeToProduct (fuel + 1) post refetch product amount retried =
        (false, retried)) ∧
    (product.id ∉ retried →
      ((refetch product).find? (fun q => matchesRetryProduct product q) = none →
        subscribeToProduct (fuel + 1) post refetch product amount retried =
          (false, product.id :: retried)) ∧
      (∀ matched,
        (refetch product).find? (fun q => matchesRetryProduct product q) =
          some matched →
        matchesRetryProduct product matched = true ∧
        subscribeToProduct (fuel + 1) post refetch product amount retried =
          subscribeToProduct fuel post refetch matched amount
            (product.id :: retried))) := by
  have hunfold : subscribeToProduct (fuel + 1) post refetch product amount retried =
      (match post product with
       | PostOutcome.success => (true, retried)
       | PostOutcome.failure code m =>
         if code = -9000 ∧ msgIncludesAPY m = true ∧ product.id ∉ retried then
           match (refetch product).find? (fun q => matchesRetryProduct product q) with
           | some matched =>
               subscribeToProduct fuel post refetch matched amount
                 (product.id :: retried)
           | none => (false, product.id :: retried)
         else (false, retried)) := rfl
  have hstep : subscribeToProduct (fuel + 1) post refetch product amount retried =
      (if (-9000 : ℤ) = -9000 ∧ msgIncludesAPY msg = true ∧ product.id ∉ retried
       then
        (match (refetch product).find? (fun q => matchesRetryProduct product q) with
         | some matched =>
             subscribeToProduct fuel post refetch matched amount
               (product.id :: retried)
         | none => (false, product.id :: retried))
       else (false, retried)) := by
    rw [hunfold, hpost]
  constructor
  · intro hmem
    rw [hstep, if_neg (fun h => h.2.2 hmem)]
  · intro hmem
    constructor
    · intro hfind
      rw [hstep, if_pos ⟨rfl, hmsg, hmem⟩, hfind]
    · intro matched hfind
      refine ⟨List.find?_some hfind, ?_⟩
      rw [hstep, if_pos ⟨rfl, hmsg, hmem⟩, hfind]

/-- A concrete product for the C7 witness. -/
def sampleSubProduct : SubProduct :=
  { id := "D1", optionType := OptionType.PUT, exercisedCoin := "BTC",
    investCoin := "USDT", underlying := "BTCUSDT", settleCoin := "USDT",
    settleDate := 1750000000, apr := 1/5 }

/-- A POST oracle that always rejects with the stale-APY code. -/
def apyFailPost : SubProduct → PostOutcome :=
  fun _ => PostOutcome.failure (-9000) "Product APY changed"

/-- A re-fetch oracle that finds nothing. -/
def emptyRefetch : SubProduct → List SubProduct := fun _ => []

/-- Witness for C7: a stale-APY rejection with no matching re-fetched
product is terminal — the call returns false and marks the product
retried. -/
theorem subscribeToProduct_single_bounded_retry_witness :
    subscribeToProduct 1 apyFailPost emptyRefetch sampleSubProduct 100 [] =
      (false, [sampleSubProduct.id]) :=
  (((subscribeToProduct_single_bounded_retry 0 apyFailPost emptyRefetch
      sampleSubProduct 100 [] "Product APY changed" rfl (by decide)).2
    (by simp)).1) rfl

end QuantOptions
